import Mathlib

/- Shallow embedding of the SimpleML artifact creation and retrieval layer
   (simpleml/utils/training/create_persistable.py), the class registry
   (simpleml/persistables/meta_registry.py) and the sklearn pipeline wrapper
   (simpleml/pipelines/external_pipelines.py). -/

/-- The six persistable kinds, one per database table class returned by the
creators (BaseRawDataset, BaseDatasetPipeline, BaseProcessedDataset,
BaseProductionPipeline, BaseModel, BaseMetric). -/
inductive Kind where
  | rawDataset
  | datasetPipeline
  | dataset
  | pipeline
  | model
  | metric
deriving DecidableEq, Repr

/-- Errors surfaced by the creation layer: the TrainingError raised by
retrieve_dependency when a prerequisite record is missing, and the store's
uniqueness violation on a racing duplicate (name, version). -/
inductive CreatorError where
  | missingDependency
  | uniquenessConflict
deriving DecidableEq, Repr

/-- A persisted artifact record: the shared persistable columns read by the
creators (name, version, registered_name, hash_), the table it lives in, its
primary key, the single dependency foreign key (pipeline_id or model_id,
according to kind) and whether its payload has been loaded. -/
structure Record where
  name : String
  version : Nat
  registered_name : String
  hash_ : Nat
  kind : Kind
  id : Nat
  dependency_id : Option Nat := none
  loaded : Bool := false
deriving DecidableEq, Repr

/-- The artifact store: the rows of all tables. -/
abbrev Store := List Record

/-- The filter dictionaries produced by the determine_filters implementations:
{name, version}, {name, registered_name}, {name, registered_name, hash_},
{name, registered_name, pipeline_id} and {name, model_id}. -/
inductive Filters where
  | nameVersion (name : String) (version : Nat)
  | nameRegistered (name : String) (registered_name : String)
  | nameRegisteredHash (name : String) (registered_name : String) (hash_ : Nat)
  | nameRegisteredPipeline (name : String) (registered_name : String) (pipeline_id : Nat)
  | nameModel (name : String) (model_id : Nat)
deriving DecidableEq, Repr

/-- Whether a record satisfies a filter dictionary (the where clause of the
query built by PersistableCreator.retrieve). -/
def Filters.matches : Filters → Record → Bool
  | .nameVersion n v, r => decide (r.name = n) && decide (r.version = v)
  | .nameRegistered n rn, r => decide (r.name = n) && decide (r.registered_name = rn)
  | .nameRegisteredHash n rn h, r =>
      decide (r.name = n) && decide (r.registered_name = rn) && decide (r.hash_ = h)
  | .nameRegisteredPipeline n rn pid, r =>
      decide (r.name = n) && decide (r.registered_name = rn) &&
        decide (r.dependency_id = some pid)
  | .nameModel n mid, r => decide (r.name = n) && decide (r.dependency_id = some mid)

/-- Whether a filter dictionary contains the hash_ key. -/
def Filters.usesHash : Filters → Bool
  | .nameRegisteredHash _ _ _ => true
  | _ => false

/-- Instrumentation recording which side effects a determine_filters call
performed on its way to the filter dictionary: constructing a dummy
implementation instance through the registry, computing its hash, fitting,
building or scoring it, and resolving a dependency through the store. -/
structure Effects where
  constructedInstance : Bool := false
  computedHash : Bool := false
  fitted : Bool := false
  resolvedDependency : Bool := false
deriving DecidableEq, Repr

/-- Insert a record into a list kept in descending version order. -/
def insertDesc (r : Record) : List Record → List Record
  | [] => [r]
  | x :: xs => if x.version < r.version then r :: x :: xs else x :: insertDesc r xs

/-- Sort a result set by version descending, the order_by(version.desc())
of the query built by PersistableCreator.retrieve. -/
def sortByVersionDesc : List Record → List Record
  | [] => []
  | x :: xs => insertDesc x (sortByVersionDesc xs)

/-- Loading a persistable materializes its payload (persistable.load()). -/
def load (r : Record) : Record := { r with loaded := true }

/-- PersistableCreator.retrieve: query the table model for records matching
the filters, order by version descending, and return the first or None. -/
def PersistableCreator.retrieve (k : Kind) (store : Store) (f : Filters) : Option Record :=
  (sortByVersionDesc (store.filter (fun r => decide (r.kind = k) && f.matches r))).head?

/-- Error raised by meta_registry.Registry on what it considers a duplicate
registration (ValueError: Cannot duplicate class in registry). -/
inductive RegistryError where
  | duplicateRegistration
deriving DecidableEq, Repr

/-- Python dict lookup for the registry mapping (class name to implementation,
implementations represented by numeric identifiers). -/
def dictGet : List (String × Nat) → String → Option Nat
  | [], _ => none
  | (k, v) :: rest, key => if k = key then some v else dictGet rest key

/-- Python membership test key in dict. -/
def dictContains (d : List (String × Nat)) (key : String) : Bool :=
  (dictGet d key).isSome

/-- Python dict assignment d[key] = v: overwrites in place when the key is
present, appends otherwise. -/
def dictSet : List (String × Nat) → String → Nat → List (String × Nat)
  | [], k, v => [(k, v)]
  | (k1, v1) :: rest, k, v =>
      if k1 = k then (k, v) :: rest else (k1, v1) :: dictSet rest k v

/-- Registry.__new__ from meta_registry.py: creates the class, then raises if
cls.__name__ is already a key of the registry, then binds the new class name.
Note that cls in a metaclass __new__ is the metaclass itself, so the guard
tests the METAclass's own name (metaclassName below) rather than the name of
the class being registered. -/
def Registry.new (metaclassName : String) (registry : List (String × Nat))
    (clsName : String) (impl : Nat) : Except RegistryError (List (String × Nat)) :=
  if dictContains registry metaclassName then .error .duplicateRegistration
  else .ok (dictSet registry clsName impl)

/-- Registry.get_from_registry: dictionary lookup of a registered class. -/
def Registry.get_from_registry (registry : List (String × Nat)) (clsName : String) :
    Option Nat :=
  dictGet registry clsName

/-- Modelled from the spec: character fold used to fingerprint configuration
strings. The persistables' own hashing bodies are not among the analyzed
sources; §4.4 only requires a deterministic digest of the configuration. -/
def strCode (s : String) : Nat := s.foldl (fun a c => a * 257 + c.toNat) 7

/-- Modelled from the spec: the Hash Engine (§4.4) computes a deterministic
fingerprint of an artifact's configuration plus its resolved dependency's
fingerprint, with a fixed sentinel (here 0) for the leaf kind. -/
def fingerprint (config : List String) (depHash : Nat) : Nat :=
  config.foldl (fun a s => a * 1000003 + strCode s) (depHash + 1)

/-- An in-memory implementation instance constructed through the registry:
the attributes the creators read from it (name, registered name, computed
hash and dependency key) before filtering or saving. -/
structure Instance where
  name : String
  registered_name : String
  hash_ : Nat
  dependency_id : Option Nat := none
deriving DecidableEq, Repr

/-- Keyword arguments of RawDatasetCreator.determine_filters and create_new:
name (default ''), version (default None), strict (default True), and the
registered_name threaded through kwargs (kwargs.get, None modelled as ''). -/
structure RawDatasetArgs where
  name : String := ""
  version : Option Nat := none
  strict : Bool := true
  registered_name : String := ""

/-- SIMPLEML_REGISTRY.get(registered_name)(name=name, kwargs) followed by
_hash() for a raw dataset: the leaf kind fingerprints its configuration with
the sentinel dependency hash. -/
def buildRawDataset (args : RawDatasetArgs) : Instance :=
  { name := args.name
    registered_name := args.registered_name
    hash_ := fingerprint [args.registered_name, args.name] 0 }

/-- RawDatasetCreator.determine_filters: an explicit version gives
{name, version}; otherwise strict constructs the dataset and filters by
{name, registered_name, hash_}, and loose filters by {name, registered_name}
without constructing anything. -/
def RawDatasetCreator.determine_filters (args : RawDatasetArgs) (_store : Store) :
    Except CreatorError (Kind × Filters × Effects) :=
  match args.version with
  | some v => .ok (.rawDataset, .nameVersion args.name v, {})
  | none =>
      if args.strict then
        .ok (.rawDataset,
             .nameRegisteredHash args.name args.registered_name (buildRawDataset args).hash_,
             { constructedInstance := true, computedHash := true })
      else
        .ok (.rawDataset, .nameRegistered args.name args.registered_name, {})

/-- PersistableCreator.retrieve_dependency: run the dependency creator's
determine_filters and retrieve; raise the missing-dependency TrainingError if
no record matches, otherwise load and return the existing record. It reads
the store and never writes to it. -/
def PersistableCreator.retrieve_dependency
    (depFilters : Store → Except CreatorError (Kind × Filters × Effects))
    (store : Store) : Except CreatorError Record :=
  match depFilters store with
  | .error e => .error e
  | .ok (k, f, _) =>
      match PersistableCreator.retrieve k store f with
      | none => .error .missingDependency
      | some d => .ok (load d)

/-- Keyword arguments of DatasetPipelineCreator.determine_filters: strict
defaults to False; the raw dataset dependency is either passed as an object
or described by raw_dataset_kwargs (default {}). -/
structure DatasetPipelineArgs where
  name : String := ""
  version : Option Nat := none
  strict : Bool := false
  registered_name : String := ""
  raw_dataset : Option Record := none
  raw_dataset_kwargs : RawDatasetArgs := {}

/-- Registry construction of a dataset pipeline plus add_dataset(dataset):
the fingerprint covers the configuration and the attached dataset's hash. -/
def buildDatasetPipeline (args : DatasetPipelineArgs) (dataset : Record) : Instance :=
  { name := args.name
    registered_name := args.registered_name
    hash_ := fingerprint [args.registered_name, args.name] dataset.hash_
    dependency_id := some dataset.id }

/-- DatasetPipelineCreator.retrieve_dataset: dependency lookup through
RawDatasetCreator. -/
def DatasetPipelineCreator.retrieve_dataset (args : RawDatasetArgs) (store : Store) :
    Except CreatorError Record :=
  PersistableCreator.retrieve_dependency (RawDatasetCreator.determine_filters args) store

/-- DatasetPipelineCreator.determine_filters: an explicit version gives
{name, version}; otherwise the raw dataset dependency is taken from kwargs or
retrieved, a dummy pipeline is always built and its hash always computed, and
strict only controls whether fit() runs before hashing. -/
def DatasetPipelineCreator.determine_filters (args : DatasetPipelineArgs) (store : Store) :
    Except CreatorError (Kind × Filters × Effects) :=
  match args.version with
  | some v => .ok (.datasetPipeline, .nameVersion args.name v, {})
  | none =>
      match args.raw_dataset with
      | some dataset =>
          .ok (.datasetPipeline,
               .nameRegisteredHash args.name args.registered_name
                 (buildDatasetPipeline args dataset).hash_,
               { constructedInstance := true, computedHash := true, fitted := args.strict })
      | none =>
          match DatasetPipelineCreator.retrieve_dataset args.raw_dataset_kwargs store with
          | .error e => .error e
          | .ok dataset =>
              .ok (.datasetPipeline,
                   .nameRegisteredHash args.name args.registered_name
                     (buildDatasetPipeline args dataset).hash_,
                   { constructedInstance := true, computedHash := true,
                     fitted := args.strict, resolvedDependency := true })

/-- Keyword arguments of DatasetCreator.determine_filters: strict defaults to
True; the dataset pipeline dependency is either passed as an object or
described by dataset_pipeline_kwargs (default {}). -/
structure DatasetArgs where
  name : String := ""
  version : Option Nat := none
  strict : Bool := true
  registered_name : String := ""
  dataset_pipeline : Option Record := none
  dataset_pipeline_kwargs : DatasetPipelineArgs := {}

/-- Registry construction of a processed dataset plus add_pipeline(pipeline)
and build_dataframe(): the fingerprint covers the configuration and the
attached pipeline's hash. -/
def buildDataset (args : DatasetArgs) (pipeline : Record) : Instance :=
  { name := args.name
    registered_name := args.registered_name
    hash_ := fingerprint [args.registered_name, args.name] pipeline.hash_
    dependency_id := some pipeline.id }

/-- DatasetCreator.retrieve_pipeline: dependency lookup through
DatasetPipelineCreator. -/
def DatasetCreator.retrieve_pipeline (args : DatasetPipelineArgs) (store : Store) :
    Except CreatorError Record :=
  PersistableCreator.retrieve_dependency
    (DatasetPipelineCreator.determine_filters args) store

/-- DatasetCreator.determine_filters: an explicit version gives
{name, version}; otherwise the pipeline dependency is taken from kwargs or
retrieved, then strict builds the dataset (build_dataframe) and filters by its
hash, and loose filters by {name, registered_name, pipeline_id} without
constructing anything. -/
def DatasetCreator.determine_filters (args : DatasetArgs) (store : Store) :
    Except CreatorError (Kind × Filters × Effects) :=
  match args.version with
  | some v => .ok (.dataset, .nameVersion args.name v, {})
  | none =>
      match args.dataset_pipeline with
      | some pipeline =>
          if args.strict then
            .ok (.dataset,
                 .nameRegisteredHash args.name args.registered_name
                   (buildDataset args pipeline).hash_,
                 { constructedInstance := true, computedHash := true, fitted := true })
          else
            .ok (.dataset,
                 .nameRegisteredPipeline args.name args.registered_name pipeline.id, {})
      | none =>
          match DatasetCreator.retrieve_pipeline args.dataset_pipeline_kwargs store with
          | .error e => .error e
          | .ok pipeline =>
              if args.strict then
                .ok (.dataset,
                     .nameRegisteredHash args.name args.registered_name
                       (buildDataset args pipeline).hash_,
                     { constructedInstance := true, computedHash := true, fitted := true,
                       resolvedDependency := true })
              else
                .ok (.dataset,
                     .nameRegisteredPipeline args.name args.registered_name pipeline.id,
                     { resolvedDependency := true })

/-- Keyword arguments of PipelineCreator.determine_filters: strict defaults to
False; the processed dataset dependency is either passed as an object or
described by dataset_kwargs (default {}). -/
structure PipelineArgs where
  name : String := ""
  version : Option Nat := none
  strict : Bool := false
  registered_name : String := ""
  dataset : Option Record := none
  dataset_kwargs : DatasetArgs := {}

/-- Registry construction of a production pipeline plus add_dataset(dataset):
the fingerprint covers the configuration and the attached dataset's hash. -/
def buildPipeline (args : PipelineArgs) (dataset : Record) : Instance :=
  { name := args.name
    registered_name := args.registered_name
    hash_ := fingerprint [args.registered_name, args.name] dataset.hash_
    dependency_id := some dataset.id }

/-- PipelineCreator.retrieve_dataset: dependency lookup through
DatasetCreator. -/
def PipelineCreator.retrieve_dataset (args : DatasetArgs) (store : Store) :
    Except CreatorError Record :=
  PersistableCreator.retrieve_dependency (DatasetCreator.determine_filters args) store

/-- PipelineCreator.determine_filters: an explicit version gives
{name, version}; otherwise the dataset dependency is taken from kwargs or
retrieved, a dummy pipeline is always built and its hash always computed, and
strict only controls whether fit() runs before hashing. -/
def PipelineCreator.determine_filters (args : PipelineArgs) (store : Store) :
    Except CreatorError (Kind × Filters × Effects) :=
  match args.version with
  | some v => .ok (.pipeline, .nameVersion args.name v, {})
  | none =>
      match args.dataset with
      | some dataset =>
          .ok (.pipeline,
               .nameRegisteredHash args.name args.registered_name
                 (buildPipeline args dataset).hash_,
               { constructedInstance := true, computedHash := true, fitted := args.strict })
      | none =>
          match PipelineCreator.retrieve_dataset args.dataset_kwargs store with
          | .error e => .error e
          | .ok dataset =>
              .ok (.pipeline,
                   .nameRegisteredHash args.name args.registered_name
                     (buildPipeline args dataset).hash_,
                   { constructedInstance := true, computedHash := true,
                     fitted := args.strict, resolvedDependency := true })

/-- Keyword arguments of ModelCreator.determine_filters: strict defaults to
False; the production pipeline dependency is either passed as an object or
described by pipeline_kwargs (default {}). -/
structure ModelArgs where
  name : String := ""
  version : Option Nat := none
  strict : Bool := false
  registered_name : String := ""
  pipeline : Option Record := none
  pipeline_kwargs : PipelineArgs := {}

/-- Registry construction of a model plus add_pipeline(pipeline): the
fingerprint covers the configuration and the attached pipeline's hash. -/
def buildModel (args : ModelArgs) (pipeline : Record) : Instance :=
  { name := args.name
    registered_name := args.registered_name
    hash_ := fingerprint [args.registered_name, args.name] pipeline.hash_
    dependency_id := some pipeline.id }

/-- ModelCreator.retrieve_pipeline: dependency lookup through
PipelineCreator. -/
def ModelCreator.retrieve_pipeline (args : PipelineArgs) (store : Store) :
    Except CreatorError Record :=
  PersistableCreator.retrieve_dependency (PipelineCreator.determine_filters args) store

/-- ModelCreator.determine_filters: an explicit version gives {name, version};
otherwise the pipeline dependency is taken from kwargs or retrieved, a dummy
model is always built and its hash always computed, and strict only controls
whether fit() runs before hashing. -/
def ModelCreator.determine_filters (args : ModelArgs) (store : Store) :
    Except CreatorError (Kind × Filters × Effects) :=
  match args.version with
  | some v => .ok (.model, .nameVersion args.name v, {})
  | none =>
      match args.pipeline with
      | some pipeline =>
          .ok (.model,
               .nameRegisteredHash args.name args.registered_name
                 (buildModel args pipeline).hash_,
               { constructedInstance := true, computedHash := true, fitted := args.strict })
      | none =>
          match ModelCreator.retrieve_pipeline args.pipeline_kwargs store with
          | .error e => .error e
          | .ok pipeline =>
              .ok (.model,
                   .nameRegisteredHash args.name args.registered_name
                     (buildModel args pipeline).hash_,
                   { constructedInstance := true, computedHash := true,
                     fitted := args.strict, resolvedDependency := true })

/-- Keyword arguments of MetricCreator.determine_filters: name and model_id
both default to None, strict defaults to False; the model dependency is either
passed as an object or described by model_kwargs (default {}). The signature
has no version parameter: a version keyword lands in kwargs and plays no role
in choosing filters. -/
structure MetricArgs where
  name : Option String := none
  model_id : Option Nat := none
  strict : Bool := false
  registered_name : String := ""
  model : Option Record := none
  model_kwargs : ModelArgs := {}
  version : Option Nat := none

/-- Registry construction of a metric plus add_model(model): the fingerprint
covers the configuration and the attached model's hash. Modelled from the
spec for the constructed instance's name: metric implementations hard-code
names reflecting the evaluation context, which is outside the analyzed
sources, so the passed name (falling back to the registered name) stands in
for it. -/
def buildMetric (args : MetricArgs) (model : Record) : Instance :=
  { name := args.name.getD args.registered_name
    registered_name := args.registered_name
    hash_ := fingerprint [args.registered_name, args.name.getD args.registered_name]
      model.hash_
    dependency_id := some model.id }

/-- MetricCreator.retrieve_model: dependency lookup through ModelCreator. -/
def MetricCreator.retrieve_model (args : ModelArgs) (store : Store) :
    Except CreatorError Record :=
  PersistableCreator.retrieve_dependency (ModelCreator.determine_filters args) store

/-- MetricCreator.determine_filters: when both name and model_id are supplied
the filter is directly {name, model_id}; otherwise the model dependency is
taken from kwargs or retrieved, a dummy metric is built and its hash computed,
and strict only controls whether score() runs before hashing. -/
def MetricCreator.determine_filters (args : MetricArgs) (store : Store) :
    Except CreatorError (Kind × Filters × Effects) :=
  match args.name, args.model_id with
  | some n, some mid => .ok (.metric, .nameModel n mid, {})
  | _, _ =>
      match args.model with
      | some model =>
          .ok (.metric,
               .nameRegisteredHash (buildMetric args model).name args.registered_name
                 (buildMetric args model).hash_,
               { constructedInstance := true, computedHash := true, fitted := args.strict })
      | none =>
          match MetricCreator.retrieve_model args.model_kwargs store with
          | .error e => .error e
          | .ok model =>
              .ok (.metric,
                   .nameRegisteredHash (buildMetric args model).name args.registered_name
                     (buildMetric args model).hash_,
                   { constructedInstance := true, computedHash := true,
                     fitted := args.strict, resolvedDependency := true })

/-- Modelled from the spec: the maximum existing version for a name within a
kind, used by version allocation (§4.3). -/
def maxVersion (store : Store) (k : Kind) (n : String) : Nat :=
  store.foldl (fun a r => if r.kind = k ∧ r.name = n then max a r.version else a) 0

/-- Modelled from the spec: persistable save through the Artifact Store (§4.3,
§6) — the persistables' save implementation is outside the analyzed sources.
The assigned version is one greater than the maximum existing version for the
same name within the kind (1 if none exist); the store enforces
(name, version) uniqueness and reports UniquenessConflict on a duplicate. -/
def saveNew (store : Store) (k : Kind) (inst : Instance) :
    Except CreatorError (Record × Store) :=
  let v := 1 + maxVersion store k inst.name
  let r : Record :=
    { name := inst.name, version := v, registered_name := inst.registered_name,
      hash_ := inst.hash_, kind := k, id := store.length,
      dependency_id := inst.dependency_id, loaded := true }
  if store.any (fun x => decide (x.kind = k) && decide (x.name = inst.name) &&
       decide (x.version = v)) then
    .error .uniquenessConflict
  else .ok (r, store ++ [r])

/-- RawDatasetCreator.create_new: construct the dataset through the registry,
build_dataframe() and save. The store's persist operation is the external
collaborator persistOp (§6); the source has no conflict handler around it, so
whatever persistOp returns is the result. -/
def RawDatasetCreator.create_new
    (persistOp : Store → Kind → Instance → Except CreatorError (Record × Store))
    (args : RawDatasetArgs) (store : Store) : Except CreatorError (Record × Store) :=
  persistOp store .rawDataset (buildRawDataset args)

/-- MetricCreator.create_new: resolve the model through retrieve_model when it
was not passed, construct the metric, add_model, score() and save through the
store collaborator persistOp. -/
def MetricCreator.create_new
    (persistOp : Store → Kind → Instance → Except CreatorError (Record × Store))
    (args : MetricArgs) (store : Store) : Except CreatorError (Record × Store) :=
  match args.model with
  | some model => persistOp store .metric (buildMetric args model)
  | none =>
      match MetricCreator.retrieve_model args.model_kwargs store with
      | .error e => .error e
      | .ok model => persistOp store .metric (buildMetric args model)

/-- The PersistableCreator interface: each concrete creator contributes
determine_filters and create_new, and the orchestration methods are shared. -/
structure Creator (Args : Type) where
  determine_filters : Args → Store → Except CreatorError (Kind × Filters × Effects)
  create_new : Args → Store → Except CreatorError (Record × Store)

/-- PersistableCreator.retrieve_or_create: compute filters through
determine_filters, attempt retrieve; on a hit load and return the existing
record with the store unchanged, otherwise create_new with the same
arguments. -/
def PersistableCreator.retrieve_or_create {Args : Type} (c : Creator Args)
    (args : Args) (store : Store) : Except CreatorError (Record × Store) :=
  match c.determine_filters args store with
  | .error e => .error e
  | .ok (k, f, _) =>
      match PersistableCreator.retrieve k store f with
      | some persistable => .ok (load persistable, store)
      | none => c.create_new args store

/-- RawDatasetCreator packaged as a Creator, with saveNew as the store
collaborator. -/
def RawDatasetCreator.creator : Creator RawDatasetArgs :=
  { determine_filters := RawDatasetCreator.determine_filters
    create_new := RawDatasetCreator.create_new saveNew }

/-- SklearnPipeline.remove_transformer from external_pipelines.py: find the
index of the first step whose name matches (the [0] of the filtered
enumeration, None modelling the IndexError on an empty match list) and pop it
from the steps. -/
def SklearnPipeline.remove_transformer {α : Type} (steps : List (String × α))
    (nm : String) : Option (List (String × α)) :=
  match ((steps.enum).filter (fun p => p.2.1 == nm)).head? with
  | none => none
  | some p => some (steps.eraseIdx p.1)

/-- Example raw dataset record, version 1. -/
def exRaw1 : Record :=
  { name := "d1", version := 1, registered_name := "CsvDataset", hash_ := 11,
    kind := .rawDataset, id := 1 }

/-- Example raw dataset record, version 2 of the same name. -/
def exRaw2 : Record := { exRaw1 with version := 2, id := 2, hash_ := 12 }

/-- Example production pipeline record. -/
def exPipe : Record :=
  { name := "p1", version := 1, registered_name := "Pipe", hash_ := 21,
    kind := .pipeline, id := 3 }

/-- Example dataset pipeline record. -/
def exDsPipe : Record :=
  { name := "dp1", version := 1, registered_name := "DsPipe", hash_ := 41,
    kind := .datasetPipeline, id := 4 }

/-- Example model record. -/
def exModel : Record :=
  { name := "m1", version := 1, registered_name := "RF", hash_ := 31,
    kind := .model, id := 9 }

/-- Example store holding the two raw dataset versions. -/
def exStoreRaw : Store := [exRaw1, exRaw2]

/-- Example raw dataset lookup arguments with an explicit version. -/
def exArgsRawV1 : RawDatasetArgs :=
  { name := "d1", version := some 1, registered_name := "CsvDataset" }

/-- Example model lookup arguments in loose mode with the pipeline passed. -/
def exArgsModelLoose : ModelArgs :=
  { name := "m", registered_name := "RF", pipeline := some exPipe }

/-- Example model dependency lookup arguments with an explicit version. -/
def exArgsModelV1 : ModelArgs :=
  { name := "m1", version := some 1, registered_name := "RF" }

/-- Example metric arguments whose model must be resolved from the store. -/
def exArgsMetric : MetricArgs :=
  { registered_name := "Acc", model_kwargs := exArgsModelV1 }

/-- Modelled from the spec: a store persist operation standing for the loser
of a (name, version) race — the store reports UniquenessConflict (§6). -/
def conflictingSave : Store → Kind → Instance → Except CreatorError (Record × Store) :=
  fun _ _ _ => .error .uniquenessConflict

/-- Example processed dataset record. -/
def exDs : Record :=
  { name := "ds1", version := 1, registered_name := "Proc", hash_ := 51,
    kind := .dataset, id := 5 }

/-- Example raw dataset lookup arguments in loose mode. -/
def exArgsRawLoose : RawDatasetArgs :=
  { name := "d", registered_name := "R", strict := false }

/-- Example processed dataset lookup arguments in loose mode with the
pipeline passed. -/
def exArgsDatasetLoose : DatasetArgs :=
  { name := "pd", registered_name := "R", strict := false,
    dataset_pipeline := some exDsPipe }

/-- Example dataset pipeline lookup arguments in loose mode with the raw
dataset passed. -/
def exArgsDsPipeLoose : DatasetPipelineArgs :=
  { name := "dp", registered_name := "R", raw_dataset := some exRaw1 }

/-- Example production pipeline lookup arguments in loose mode with the
dataset passed. -/
def exArgsPipeLoose : PipelineArgs :=
  { name := "pp", registered_name := "R", dataset := some exDs }

/-- Example metric lookup arguments in loose mode with the model passed and
no model_id. -/
def exArgsMetricLoose : MetricArgs :=
  { name := some "acc", registered_name := "Acc", model := some exModel }

/-- Membership in an insertDesc result is membership in the inserted element
or the original list. -/
theorem mem_insertDesc {y r : Record} : ∀ {l : List Record},
    y ∈ insertDesc r l ↔ y = r ∨ y ∈ l := by
  intro l
  induction l with
  | nil => simp [insertDesc]
  | cons x xs ih =>
      simp only [insertDesc]
      split
      · simp
      · simp only [List.mem_cons, ih]
        tauto

/-- insertDesc preserves descending order by version. -/
theorem pairwise_insertDesc {r : Record} {l : List Record}
    (h : l.Pairwise (fun a b => b.version ≤ a.version)) :
    (insertDesc r l).Pairwise (fun a b => b.version ≤ a.version) := by
  induction l with
  | nil => simp [insertDesc]
  | cons x xs ih =>
      rw [List.pairwise_cons] at h
      obtain ⟨hx, hxs⟩ := h
      simp only [insertDesc]
      split
      · rename_i hlt
        refine List.Pairwise.cons ?_ (List.Pairwise.cons hx hxs)
        intro y hy
        rcases List.mem_cons.mp hy with h1 | h2
        · subst h1; exact Nat.le_of_lt hlt
        · exact le_trans (hx y h2) (Nat.le_of_lt hlt)
      · rename_i hge
        refine List.Pairwise.cons ?_ (ih hxs)
        intro y hy
        rcases mem_insertDesc.mp hy with h1 | h2
        · subst h1; exact Nat.le_of_not_lt hge
        · exact hx y h2

/-- sortByVersionDesc sorts descending by version. -/
theorem pairwise_sortByVersionDesc : ∀ (l : List Record),
    (sortByVersionDesc l).Pairwise (fun a b => b.version ≤ a.version) := by
  intro l
  induction l with
  | nil => simp [sortByVersionDesc]
  | cons x xs ih => exact pairwise_insertDesc ih

/-- sortByVersionDesc preserves membership. -/
theorem mem_sortByVersionDesc {y : Record} : ∀ {l : List Record},
    y ∈ sortByVersionDesc l ↔ y ∈ l := by
  intro l
  induction l with
  | nil => simp [sortByVersionDesc]
  | cons x xs ih => simp [sortByVersionDesc, mem_insertDesc, ih]

/-- A record returned by retrieve is in the store, has the queried kind,
matches the filters, and carries the maximum version among all matches. -/
theorem retrieve_some_spec {k : Kind} {store : Store} {f : Filters} {r : Record}
    (h : PersistableCreator.retrieve k store f = some r) :
    r ∈ store ∧ r.kind = k ∧ f.matches r = true ∧
      ∀ s ∈ store, s.kind = k → f.matches s = true → s.version ≤ r.version := by
  unfold PersistableCreator.retrieve at h
  rcases hsort : sortByVersionDesc
      (store.filter (fun x => decide (x.kind = k) && f.matches x)) with _ | ⟨a, t⟩
  · rw [hsort] at h
    simp at h
  · rw [hsort] at h
    simp only [List.head?] at h
    injection h with h
    subst h
    have hmem : a ∈ store.filter (fun x => decide (x.kind = k) && f.matches x) := by
      rw [← mem_sortByVersionDesc (l := store.filter
        (fun x => decide (x.kind = k) && f.matches x)), hsort]
      exact List.mem_cons_self a t
    rw [List.mem_filter] at hmem
    obtain ⟨hstore, hpred⟩ := hmem
    rw [Bool.and_eq_true, decide_eq_true_iff] at hpred
    refine ⟨hstore, hpred.1, hpred.2, ?_⟩
    intro s hs hks hms
    have hsmem : s ∈ store.filter (fun x => decide (x.kind = k) && f.matches x) := by
      rw [List.mem_filter]
      exact ⟨hs, by rw [Bool.and_eq_true, decide_eq_true_iff]; exact ⟨hks, hms⟩⟩
    have hssort : s ∈ sortByVersionDesc
        (store.filter (fun x => decide (x.kind = k) && f.matches x)) :=
      mem_sortByVersionDesc.mpr hsmem
    rw [hsort] at hssort
    rcases List.mem_cons.mp hssort with h1 | h2
    · subst h1; exact Nat.le_refl _
    · have hp := pairwise_sortByVersionDesc
        (store.filter (fun x => decide (x.kind = k) && f.matches x))
      rw [hsort, List.pairwise_cons] at hp
      exact hp.1 s h2

/-- If retrieve returns None then no record of the kind matches the filters. -/
theorem retrieve_none_spec {k : Kind} {store : Store} {f : Filters}
    (h : PersistableCreator.retrieve k store f = none) :
    ∀ r ∈ store, ¬(r.kind = k ∧ f.matches r = true) := by
  intro r hr hmatch
  have hmem : r ∈ store.filter (fun x => decide (x.kind = k) && f.matches x) := by
    rw [List.mem_filter]
    exact ⟨hr, by rw [Bool.and_eq_true, decide_eq_true_iff]; exact hmatch⟩
  have hsortmem : r ∈ sortByVersionDesc
      (store.filter (fun x => decide (x.kind = k) && f.matches x)) :=
    mem_sortByVersionDesc.mpr hmem
  unfold PersistableCreator.retrieve at h
  rcases hsort : sortByVersionDesc
      (store.filter (fun x => decide (x.kind = k) && f.matches x)) with _ | ⟨a, t⟩
  · rw [hsort] at hsortmem
    simp at hsortmem
  · rw [hsort] at h
    simp at h

/-- If no record of the kind matches the filters then retrieve returns None. -/
theorem retrieve_eq_none_of_no_match {k : Kind} {store : Store} {f : Filters}
    (h : ∀ r ∈ store, ¬(r.kind = k ∧ f.matches r = true)) :
    PersistableCreator.retrieve k store f = none := by
  rcases hres : PersistableCreator.retrieve k store f with _ | r
  · rfl
  · obtain ⟨hr, hk, hm, _⟩ := retrieve_some_spec hres
    exact absurd ⟨hk, hm⟩ (h r hr)

/-- C5: For every kind and filter set, PersistableCreator.retrieve returns,
among the records of that kind matching the filters, one with the maximum
version, and returns None exactly when no record matches. -/
theorem retrieve_version_spec :
    ∀ (k : Kind) (store : Store) (f : Filters),
      (PersistableCreator.retrieve k store f = none →
        ∀ r ∈ store, ¬(r.kind = k ∧ f.matches r = true)) ∧
      (∀ r, PersistableCreator.retrieve k store f = some r →
        r ∈ store ∧ r.kind = k ∧ f.matches r = true ∧
          ∀ s ∈ store, s.kind = k → f.matches s = true → s.version ≤ r.version) := by
  intro k store f
  exact ⟨fun h => retrieve_none_spec h, fun r h => retrieve_some_spec h⟩

/-- Concrete instantiation of retrieve_version_spec: on a store holding
versions 1 and 2 of raw dataset d1, retrieve returns the version 2 record,
which bounds the version 1 record. -/
theorem retrieve_version_spec_witness :
    PersistableCreator.retrieve Kind.rawDataset exStoreRaw
        (Filters.nameRegistered "d1" "CsvDataset") = some exRaw2 ∧
      exRaw1.version ≤ exRaw2.version := by
  refine ⟨by decide, ?_⟩
  have h := (retrieve_version_spec Kind.rawDataset exStoreRaw
      (Filters.nameRegistered "d1" "CsvDataset")).2 exRaw2 (by decide)
  exact h.2.2.2 exRaw1 (by decide) (by decide) (by decide)

/-- C1: For every creator and argument set, retrieve_or_create computes
filters via determine_filters, attempts retrieve, loads and returns a found
record with the store unchanged, and otherwise returns exactly the result of
create_new on the same arguments, so a successful create_new also hands the
caller a record without the caller knowing whether it pre-existed. -/
theorem retrieve_or_create_spec :
    ∀ (Args : Type) (c : Creator Args) (args : Args) (store : Store)
      (k : Kind) (f : Filters) (eff : Effects),
      c.determine_filters args store = .ok (k, f, eff) →
      ((∀ p, PersistableCreator.retrieve k store f = some p →
          PersistableCreator.retrieve_or_create c args store = .ok (load p, store)) ∧
       (PersistableCreator.retrieve k store f = none →
          PersistableCreator.retrieve_or_create c args store = c.create_new args store) ∧
       (∀ r s2, PersistableCreator.retrieve k store f = none →
          c.create_new args store = .ok (r, s2) →
          PersistableCreator.retrieve_or_create c args store = .ok (r, s2))) := by
  intro Args c args store k f eff hdf
  refine ⟨?_, ?_, ?_⟩
  · intro p hp
    simp only [PersistableCreator.retrieve_or_create, hdf, hp]
  · intro hn
    simp only [PersistableCreator.retrieve_or_create, hdf, hn]
  · intro r s2 hn hc
    simp only [PersistableCreator.retrieve_or_create, hdf, hn, hc]

/-- Concrete instantiation of retrieve_or_create_spec: looking up raw dataset
d1 with explicit version 1 on the example store finds and loads the existing
record and leaves the store unchanged. -/
theorem retrieve_or_create_spec_witness :
    PersistableCreator.retrieve_or_create RawDatasetCreator.creator exArgsRawV1 exStoreRaw
      = .ok (load exRaw1, exStoreRaw) :=
  (retrieve_or_create_spec RawDatasetArgs RawDatasetCreator.creator exArgsRawV1 exStoreRaw
      Kind.rawDataset (Filters.nameVersion "d1" 1) {} rfl).1 exRaw1 (by decide)

/-- C3: Registry.__new__ guards on the metaclass's own name instead of the
name being registered, so creating a second class under an
already-registered name (here Foo, with the metaclass named Registry and the
registry already binding Foo to implementation 1) raises nothing, silently
overwrites the binding with implementation 2, and the first implementation is
no longer retrievable. -/
theorem registry_duplicate_overwrites :
    Registry.new "Registry" [("Foo", 1)] "Foo" 2 = .ok [("Foo", 2)] ∧
      Registry.get_from_registry [("Foo", 2)] "Foo" = some 2 ∧
      Registry.get_from_registry [("Foo", 2)] "Foo" ≠ some 1 := by
  refine ⟨rfl, rfl, by decide⟩

/-- C8: RawDatasetCreator.create_new has no handler around save, so when the
store's persist operation reports a UniquenessConflict (a racing writer
persisted the same (name, version) first) the conflict propagates to the
caller instead of a retrieve re-run returning the winner's record. -/
theorem create_new_propagates_conflict :
    RawDatasetCreator.create_new conflictingSave
        { name := "d1", registered_name := "CsvDataset" } [exRaw1]
      = .error .uniquenessConflict := rfl

/-- C9: The per-kind strict defaults of determine_filters are True for the
two dataset creators and False for the pipeline, model and metric creators;
consequently omitting strict makes the raw dataset creator hash its candidate
while the model creator computes its hash without fitting. -/
theorem strict_defaults :
    ({ registered_name := "R" } : RawDatasetArgs).strict = true ∧
      ({ registered_name := "R" } : DatasetArgs).strict = true ∧
      ({ registered_name := "R" } : DatasetPipelineArgs).strict = false ∧
      ({ registered_name := "R" } : PipelineArgs).strict = false ∧
      ({ registered_name := "R" } : ModelArgs).strict = false ∧
      ({ registered_name := "R" } : MetricArgs).strict = false ∧
      (RawDatasetCreator.determine_filters { name := "d", registered_name := "R" } []).map
        (fun r => (r.2.1.usesHash, r.2.2.computedHash)) = .ok (true, true) ∧
      (DatasetCreator.determine_filters
          { name := "pd", registered_name := "R", dataset_pipeline := some exDsPipe } []).map
        (fun r => (r.2.2.computedHash, r.2.2.fitted)) = .ok (true, true) ∧
      (ModelCreator.determine_filters
          { name := "m", registered_name := "R", pipeline := some exPipe } []).map
        (fun r => (r.2.2.computedHash, r.2.2.fitted)) = .ok (true, false) :=
  ⟨rfl, rfl, rfl, rfl, rfl, rfl, rfl, rfl, rfl⟩

/-- C7: Whenever MetricCreator.determine_filters receives both a name and a
model_id, it returns the {name, model_id} filter directly, independent of the
store, with no instance constructed, no dependency resolved and no hash
computed. -/
theorem metric_name_model_id_spec :
    ∀ (args : MetricArgs) (store : Store) (n : String) (mid : Nat),
      args.name = some n → args.model_id = some mid →
      MetricCreator.determine_filters args store
        = .ok (Kind.metric, Filters.nameModel n mid, {}) := by
  intro args store n mid hn hm
  unfold MetricCreator.determine_filters
  rw [hn, hm]

/-- Concrete instantiation of metric_name_model_id_spec at name acc and
model_id 3. -/
theorem metric_name_model_id_spec_witness :
    MetricCreator.determine_filters
        { name := some "acc", model_id := some 3, registered_name := "Acc" } []
      = .ok (Kind.metric, Filters.nameModel "acc" 3, {}) :=
  metric_name_model_id_spec
    { name := some "acc", model_id := some 3, registered_name := "Acc" } [] "acc" 3 rfl rfl

/-- C6 counterexample: MetricCreator.determine_filters has no version
parameter, so even with an explicit version 5 supplied it filters on
{name, model_id} rather than {name, version}. -/
theorem metric_version_ignored_cex :
    MetricCreator.determine_filters
        { name := some "acc", model_id := some 3, version := some 5,
          registered_name := "Acc" } []
      = .ok (Kind.metric, Filters.nameModel "acc" 3, {}) ∧
      Filters.nameModel "acc" 3 ≠ Filters.nameVersion "acc" 5 :=
  ⟨rfl, by decide⟩

/-- C6 amended: for the five non-metric creators an explicit version yields
exactly the {name, version} filter with no instance constructed and no hash
computed, while MetricCreator ignores any supplied version and, when name and
model_id are given, filters on {name, model_id}. -/
theorem explicit_version_filters :
    (∀ (a : RawDatasetArgs) (s : Store) (v : Nat), a.version = some v →
       RawDatasetCreator.determine_filters a s
         = .ok (Kind.rawDataset, Filters.nameVersion a.name v, {})) ∧
    (∀ (a : DatasetPipelineArgs) (s : Store) (v : Nat), a.version = some v →
       DatasetPipelineCreator.determine_filters a s
         = .ok (Kind.datasetPipeline, Filters.nameVersion a.name v, {})) ∧
    (∀ (a : DatasetArgs) (s : Store) (v : Nat), a.version = some v →
       DatasetCreator.determine_filters a s
         = .ok (Kind.dataset, Filters.nameVersion a.name v, {})) ∧
    (∀ (a : PipelineArgs) (s : Store) (v : Nat), a.version = some v →
       PipelineCreator.determine_filters a s
         = .ok (Kind.pipeline, Filters.nameVersion a.name v, {})) ∧
    (∀ (a : ModelArgs) (s : Store) (v : Nat), a.version = some v →
       ModelCreator.determine_filters a s
         = .ok (Kind.model, Filters.nameVersion a.name v, {})) ∧
    (∀ (a : MetricArgs) (s : Store) (n : String) (mid : Nat) (v : Nat),
       a.name = some n → a.model_id = some mid → a.version = some v →
       MetricCreator.determine_filters a s
         = .ok (Kind.metric, Filters.nameModel n mid, {})) := by
  refine ⟨?_, ?_, ?_, ?_, ?_, ?_⟩
  · intro a s v hv
    unfold RawDatasetCreator.determine_filters
    rw [hv]
  · intro a s v hv
    unfold DatasetPipelineCreator.determine_filters
    rw [hv]
  · intro a s v hv
    unfold DatasetCreator.determine_filters
    rw [hv]
  · intro a s v hv
    unfold PipelineCreator.determine_filters
    rw [hv]
  · intro a s v hv
    unfold ModelCreator.determine_filters
    rw [hv]
  · intro a s n mid v hn hm _hv
    unfold MetricCreator.determine_filters
    rw [hn, hm]

/-- Concrete instantiations of explicit_version_filters for each creator. -/
theorem explicit_version_filters_witness :
    RawDatasetCreator.determine_filters exArgsRawV1 []
      = .ok (Kind.rawDataset, Filters.nameVersion "d1" 1, {}) ∧
      DatasetPipelineCreator.determine_filters { name := "dp", version := some 2 } []
        = .ok (Kind.datasetPipeline, Filters.nameVersion "dp" 2, {}) ∧
      DatasetCreator.determine_filters { name := "pd", version := some 3 } []
        = .ok (Kind.dataset, Filters.nameVersion "pd" 3, {}) ∧
      PipelineCreator.determine_filters { name := "pp", version := some 4 } []
        = .ok (Kind.pipeline, Filters.nameVersion "pp" 4, {}) ∧
      ModelCreator.determine_filters exArgsModelV1 []
        = .ok (Kind.model, Filters.nameVersion "m1" 1, {}) ∧
      MetricCreator.determine_filters
          { name := some "acc", model_id := some 3, version := some 9 } []
        = .ok (Kind.metric, Filters.nameModel "acc" 3, {}) :=
  ⟨explicit_version_filters.1 exArgsRawV1 [] 1 rfl,
   explicit_version_filters.2.1 { name := "dp", version := some 2 } [] 2 rfl,
   explicit_version_filters.2.2.1 { name := "pd", version := some 3 } [] 3 rfl,
   explicit_version_filters.2.2.2.1 { name := "pp", version := some 4 } [] 4 rfl,
   explicit_version_filters.2.2.2.2.1 exArgsModelV1 [] 1 rfl,
   explicit_version_filters.2.2.2.2.2
     { name := some "acc", model_id := some 3, version := some 9 } [] "acc" 3 9 rfl rfl rfl⟩

/-- C2 counterexample: ModelCreator.determine_filters in loose mode (no
version, strict false, pipeline passed) still constructs the candidate model
and returns a filter containing hash_, with the computed-hash effect set. -/
theorem model_loose_hashes_cex :
    ModelCreator.determine_filters exArgsModelLoose []
      = .ok (Kind.model,
          Filters.nameRegisteredHash "m" "RF" (buildModel exArgsModelLoose exPipe).hash_,
          { constructedInstance := true, computedHash := true }) ∧
      (Filters.nameRegisteredHash "m" "RF"
          (buildModel exArgsModelLoose exPipe).hash_).usesHash = true :=
  ⟨rfl, rfl⟩

/-- C2 amended: in loose mode the raw dataset creator filters by
{name, registered_name} and the processed dataset creator by
{name, registered_name, pipeline_id}, neither computing a hash; but the
dataset pipeline, production pipeline, model and metric creators still build
the candidate instance and filter by {name, registered_name, hash_}, loose
mode only skipping the fit or score before hashing; the metric creator with
name and model_id given skips hashing entirely. -/
theorem loose_mode_filters :
    (∀ (a : RawDatasetArgs) (s : Store), a.version = none → a.strict = false →
       RawDatasetCreator.determine_filters a s
         = .ok (Kind.rawDataset, Filters.nameRegistered a.name a.registered_name, {})) ∧
    (∀ (a : DatasetArgs) (p : Record) (s : Store), a.version = none → a.strict = false →
       a.dataset_pipeline = some p →
       DatasetCreator.determine_filters a s
         = .ok (Kind.dataset,
             Filters.nameRegisteredPipeline a.name a.registered_name p.id, {})) ∧
    (∀ (a : DatasetPipelineArgs) (d : Record) (s : Store), a.version = none →
       a.strict = false → a.raw_dataset = some d →
       DatasetPipelineCreator.determine_filters a s
         = .ok (Kind.datasetPipeline,
             Filters.nameRegisteredHash a.name a.registered_name
               (buildDatasetPipeline a d).hash_,
             { constructedInstance := true, computedHash := true })) ∧
    (∀ (a : PipelineArgs) (d : Record) (s : Store), a.version = none →
       a.strict = false → a.dataset = some d →
       PipelineCreator.determine_filters a s
         = .ok (Kind.pipeline,
             Filters.nameRegisteredHash a.name a.registered_name
               (buildPipeline a d).hash_,
             { constructedInstance := true, computedHash := true })) ∧
    (∀ (a : ModelArgs) (p : Record) (s : Store), a.version = none →
       a.strict = false → a.pipeline = some p →
       ModelCreator.determine_filters a s
         = .ok (Kind.model,
             Filters.nameRegisteredHash a.name a.registered_name
               (buildModel a p).hash_,
             { constructedInstance := true, computedHash := true })) ∧
    (∀ (a : MetricArgs) (m : Record) (s : Store), a.model_id = none →
       a.strict = false → a.model = some m →
       MetricCreator.determine_filters a s
         = .ok (Kind.metric,
             Filters.nameRegisteredHash (buildMetric a m).name a.registered_name
               (buildMetric a m).hash_,
             { constructedInstance := true, computedHash := true })) := by
  refine ⟨?_, ?_, ?_, ?_, ?_, ?_⟩
  · intro a s hv hs
    unfold RawDatasetCreator.determine_filters
    rw [hv, hs]
    rfl
  · intro a p s hv hs hp
    unfold DatasetCreator.determine_filters
    rw [hv, hp, hs]
    rfl
  · intro a d s hv hs hd
    unfold DatasetPipelineCreator.determine_filters
    rw [hv, hd, hs]
  · intro a d s hv hs hd
    unfold PipelineCreator.determine_filters
    rw [hv, hd, hs]
  · intro a p s hv hs hp
    unfold ModelCreator.determine_filters
    rw [hv, hp, hs]
  · intro a m s hmid hs hm
    rcases hn : a.name with _ | n
    · unfold MetricCreator.determine_filters
      rw [hn, hmid, hm, hs]
    · unfold MetricCreator.determine_filters
      rw [hn, hmid, hm, hs]

/-- Concrete instantiations of loose_mode_filters for each creator. -/
theorem loose_mode_filters_witness :
    RawDatasetCreator.determine_filters exArgsRawLoose []
      = .ok (Kind.rawDataset, Filters.nameRegistered "d" "R", {}) ∧
      DatasetCreator.determine_filters exArgsDatasetLoose []
        = .ok (Kind.dataset, Filters.nameRegisteredPipeline "pd" "R" exDsPipe.id, {}) ∧
      DatasetPipelineCreator.determine_filters exArgsDsPipeLoose []
        = .ok (Kind.datasetPipeline,
            Filters.nameRegisteredHash "dp" "R"
              (buildDatasetPipeline exArgsDsPipeLoose exRaw1).hash_,
            { constructedInstance := true, computedHash := true }) ∧
      PipelineCreator.determine_filters exArgsPipeLoose []
        = .ok (Kind.pipeline,
            Filters.nameRegisteredHash "pp" "R" (buildPipeline exArgsPipeLoose exDs).hash_,
            { constructedInstance := true, computedHash := true }) ∧
      MetricCreator.determine_filters exArgsMetricLoose []
        = .ok (Kind.metric,
            Filters.nameRegisteredHash (buildMetric exArgsMetricLoose exModel).name "Acc"
              (buildMetric exArgsMetricLoose exModel).hash_,
            { constructedInstance := true, computedHash := true }) :=
  ⟨loose_mode_filters.1 exArgsRawLoose [] rfl rfl,
   loose_mode_filters.2.1 exArgsDatasetLoose exDsPipe [] rfl rfl rfl,
   loose_mode_filters.2.2.1 exArgsDsPipeLoose exRaw1 [] rfl rfl rfl,
   loose_mode_filters.2.2.2.1 exArgsPipeLoose exDs [] rfl rfl rfl,
   loose_mode_filters.2.2.2.2.2 exArgsMetricLoose exModel [] rfl rfl rfl⟩

/-- C4: retrieve_dependency runs the dependency creator's determine_filters
and retrieve, raises the missing-dependency error whenever no matching record
exists, and only ever returns an already-stored record loaded, never a
freshly created one; in particular a metric created with no model supplied
and no matching model in the store fails with missingDependency, while
supplying a model makes determine_filters store-independent and create_new
immune to missingDependency. -/
theorem retrieve_dependency_spec :
    (∀ (depF : Store → Except CreatorError (Kind × Filters × Effects)) (store : Store)
       (k : Kind) (f : Filters) (eff : Effects),
       depF store = .ok (k, f, eff) →
       PersistableCreator.retrieve k store f = none →
       PersistableCreator.retrieve_dependency depF store = .error .missingDependency) ∧
    (∀ (depF : Store → Except CreatorError (Kind × Filters × Effects)) (store : Store)
       (d : Record),
       PersistableCreator.retrieve_dependency depF store = .ok d →
       ∃ r, r ∈ store ∧ d = load r) ∧
    (∀ (args : MetricArgs) (store : Store) (v : Nat),
       args.model = none → args.model_kwargs.version = some v →
       (∀ r ∈ store, ¬(r.kind = Kind.model ∧
          (Filters.nameVersion args.model_kwargs.name v).matches r = true)) →
       MetricCreator.create_new saveNew args store = .error .missingDependency) ∧
    (∀ (args : MetricArgs) (m : Record), args.model = some m →
       (∀ store1 store2 : Store,
          MetricCreator.determine_filters args store1
            = MetricCreator.determine_filters args store2) ∧
       (∀ store : Store,
          MetricCreator.create_new saveNew args store ≠ .error .missingDependency)) := by
  refine ⟨?_, ?_, ?_, ?_⟩
  · intro depF store k f eff hdf hn
    simp only [PersistableCreator.retrieve_dependency, hdf, hn]
  · intro depF store d h
    rcases hdf : depF store with e | kfe
    · have hval : PersistableCreator.retrieve_dependency depF store = .error e := by
        simp only [PersistableCreator.retrieve_dependency, hdf]
      rw [hval] at h
      exact absurd h (by simp)
    · obtain ⟨k, f, eff⟩ := kfe
      rcases hr : PersistableCreator.retrieve k store f with _ | r
      · have hval : PersistableCreator.retrieve_dependency depF store
            = .error .missingDependency := by
          simp only [PersistableCreator.retrieve_dependency, hdf, hr]
        rw [hval] at h
        exact absurd h (by simp)
      · have hval : PersistableCreator.retrieve_dependency depF store = .ok (load r) := by
          simp only [PersistableCreator.retrieve_dependency, hdf, hr]
        rw [hval] at h
        simp only [Except.ok.injEq] at h
        exact ⟨r, (retrieve_some_spec hr).1, h.symm⟩
  · intro args store v hm hv hnone
    have hdf : ModelCreator.determine_filters args.model_kwargs store
        = .ok (.model, .nameVersion args.model_kwargs.name v, {}) := by
      unfold ModelCreator.determine_filters
      rw [hv]
    have hret : PersistableCreator.retrieve .model store
        (.nameVersion args.model_kwargs.name v) = none :=
      retrieve_eq_none_of_no_match hnone
    have hdep : MetricCreator.retrieve_model args.model_kwargs store
        = .error .missingDependency := by
      unfold MetricCreator.retrieve_model
      simp only [PersistableCreator.retrieve_dependency, hdf, hret]
    simp only [MetricCreator.create_new, hm, hdep]
  · intro args m hm
    constructor
    · intro s1 s2
      rcases hn : args.name with _ | n <;> rcases hmid : args.model_id with _ | mid <;>
        unfold MetricCreator.determine_filters <;> rw [hn, hmid] <;> rw [hm]
    · intro store hcontra
      simp only [MetricCreator.create_new, hm, saveNew] at hcontra
      split at hcontra <;> simp_all

/-- Concrete instantiations of retrieve_dependency_spec: on an empty store
the model dependency lookup fails with missingDependency, metric creation
without a model propagates it, and metric creation with an explicit model
cannot fail that way. -/
theorem retrieve_dependency_spec_witness :
    PersistableCreator.retrieve_dependency
        (ModelCreator.determine_filters exArgsModelV1) [] = .error .missingDependency ∧
      MetricCreator.create_new saveNew exArgsMetric [] = .error .missingDependency ∧
      MetricCreator.create_new saveNew { exArgsMetric with model := some exModel } []
        ≠ .error .missingDependency := by
  refine ⟨?_, ?_, ?_⟩
  · exact retrieve_dependency_spec.1 (ModelCreator.determine_filters exArgsModelV1) []
      Kind.model (Filters.nameVersion "m1" 1) {} rfl (by decide)
  · exact retrieve_dependency_spec.2.2.1 exArgsMetric [] 1 rfl rfl (by simp)
  · exact (retrieve_dependency_spec.2.2.2 { exArgsMetric with model := some exModel }
      exModel rfl).2 []

/-- If no step of the list is named nm, the filtered enumeration is empty, at
any starting index. -/
theorem filter_enumFrom_eq_nil {α : Type} (nm : String) :
    ∀ (l : List (String × α)) (k : Nat), (∀ s ∈ l, s.1 ≠ nm) →
      (List.enumFrom k l).filter (fun p => p.2.1 == nm) = [] := by
  intro l
  induction l with
  | nil => intro k _; rfl
  | cons x xs ih =>
      intro k h
      have hx : (x.1 == nm) = false := by
        simp only [beq_eq_false_iff_ne, ne_eq]
        exact h x (List.mem_cons_self x xs)
      rw [show List.enumFrom k (x :: xs) = (k, x) :: List.enumFrom (k + 1) xs from rfl,
        List.filter_cons]
      simp only [hx]
      exact ih (k + 1) (fun s hs => h s (List.mem_cons_of_mem x hs))

/-- The head of the filtered enumeration of a list whose first nm-named step
sits after prefix l1 is that step paired with index k + length l1. -/
theorem head_filter_enumFrom {α : Type} (nm : String) (t : α) :
    ∀ (l1 l2 : List (String × α)) (k : Nat), (∀ s ∈ l1, s.1 ≠ nm) →
      ((List.enumFrom k (l1 ++ (nm, t) :: l2)).filter (fun p => p.2.1 == nm)).head?
        = some (k + l1.length, (nm, t)) := by
  intro l1
  induction l1 with
  | nil =>
      intro l2 k _
      rw [List.nil_append,
        show List.enumFrom k ((nm, t) :: l2) = (k, (nm, t)) :: List.enumFrom (k + 1) l2
          from rfl,
        List.filter_cons]
      simp
  | cons x xs ih =>
      intro l2 k h
      have hx : (x.1 == nm) = false := by
        simp only [beq_eq_false_iff_ne, ne_eq]
        exact h x (List.mem_cons_self x xs)
      rw [List.cons_append,
        show List.enumFrom k (x :: (xs ++ (nm, t) :: l2))
          = (k, x) :: List.enumFrom (k + 1) (xs ++ (nm, t) :: l2) from rfl,
        List.filter_cons]
      simp only [hx, Bool.false_eq_true, if_false]
      rw [ih l2 (k + 1) (fun s hs => h s (List.mem_cons_of_mem x hs))]
      have harith : k + 1 + xs.length = k + (x :: xs).length := by
        simp only [List.length_cons]
        omega
      rw [harith]

/-- Erasing the index right after a prefix removes exactly the element
between the prefix and the suffix. -/
theorem eraseIdx_append_length {β : Type} :
    ∀ (l1 : List β) (x : β) (l2 : List β),
      (l1 ++ x :: l2).eraseIdx l1.length = l1 ++ l2 := by
  intro l1
  induction l1 with
  | nil => intro x l2; rfl
  | cons a as ih =>
      intro x l2
      rw [List.cons_append, List.length_cons,
        show ((a :: (as ++ x :: l2)).eraseIdx (as.length + 1))
          = a :: ((as ++ x :: l2).eraseIdx as.length) from rfl,
        ih x l2]
      rfl

/-- C10: SklearnPipeline.remove_transformer removes exactly the first step
named nm, leaving the other steps unchanged in order, and signals an index
error (None) when no step has that name. -/
theorem remove_transformer_spec :
    ∀ (α : Type) (steps : List (String × α)) (nm : String),
      ((∀ s ∈ steps, s.1 ≠ nm) →
        SklearnPipeline.remove_transformer steps nm = none) ∧
      (∀ (l1 : List (String × α)) (t : α) (l2 : List (String × α)),
        steps = l1 ++ (nm, t) :: l2 → (∀ s ∈ l1, s.1 ≠ nm) →
        SklearnPipeline.remove_transformer steps nm = some (l1 ++ l2)) := by
  intro α steps nm
  constructor
  · intro h
    unfold SklearnPipeline.remove_transformer
    rw [show steps.enum = List.enumFrom 0 steps from rfl,
      filter_enumFrom_eq_nil nm steps 0 h]
    rfl
  · intro l1 t l2 hsteps h
    subst hsteps
    unfold SklearnPipeline.remove_transformer
    rw [show (l1 ++ (nm, t) :: l2).enum = List.enumFrom 0 (l1 ++ (nm, t) :: l2) from rfl,
      head_filter_enumFrom nm t l1 l2 0 h]
    simp only [Nat.zero_add]
    rw [eraseIdx_append_length l1 (nm, t) l2]

/-- Concrete instantiations of remove_transformer_spec: removing b from a
pipeline with two b steps drops only the first, and removing a missing name
signals the index error. -/
theorem remove_transformer_spec_witness :
    SklearnPipeline.remove_transformer [("a", 1), ("b", 2), ("b", 3)] "b"
        = some [("a", 1), ("b", 3)] ∧
      SklearnPipeline.remove_transformer ([("a", 1)] : List (String × Nat)) "b" = none := by
  constructor
  · exact (remove_transformer_spec Nat [("a", 1), ("b", 2), ("b", 3)] "b").2
      [("a", 1)] 2 [("b", 3)] rfl (by decide)
  · exact (remove_transformer_spec Nat [("a", 1)] "b").1 (by decide)
